import Mathlib

/-!
# Verification of the nawa-functions caching geocoding gateway

Shallow embedding of the Go sources of the repository:

* the AWS-Lambda geocoding gateway (`handler`, `forwardSearch`, `reverseSearch`,
  `search`, `getCached`, `setCache`, `createResponse`, the `corsHeaders`
  package-level map) — the cache-aside orchestration core;
* the authenticated-encryption utility (`internal/keygen.go`: `Encrypt`,
  `Decrypt` over AES-GCM with a raw-URL base64 wire format).

External collaborators (the Redis client, the outbound HTTP client, the
AES-GCM AEAD from the standard library, the randomness source) are modelled
as explicit oracle state threaded through the functions; the embedded
definitions themselves mirror the Go control flow line by line.
-/

namespace Nawa

/-- Go `map[string]string` of the three CORS headers.  The package-level
`corsHeaders` map always holds exactly these three keys, so it is embedded as
a structure with one field per key. -/
structure CorsHeaders where
  allowOrigin : String
  allowHeaders : String
  allowMethods : String
  deriving Repr, DecidableEq

/-- Go map lookup on the three-key CORS header map: every one of the three
keys is always present, any other key is absent. -/
def headersGet (h : CorsHeaders) (k : String) : Option String :=
  if k = "Access-Control-Allow-Origin" then some h.allowOrigin
  else if k = "Access-Control-Allow-Headers" then some h.allowHeaders
  else if k = "Access-Control-Allow-Methods" then some h.allowMethods
  else none

/-- Initial value of the package-level `corsHeaders` map:
`{"Access-Control-Allow-Origin": "http://localhost:3000",
  "Access-Control-Allow-Headers": "*", "Access-Control-Allow-Methods": "*"}`. -/
def initialCorsHeaders : CorsHeaders :=
  { allowOrigin := "http://localhost:3000", allowHeaders := "*", allowMethods := "*" }

/-- `events.APIGatewayProxyRequest`, restricted to the fields the handler
reads.  Go map indexing returns the zero value `""` for a missing key, so the
`Headers` and `QueryStringParameters` maps are embedded as total functions. -/
structure APIGatewayProxyRequest where
  httpMethod : String
  path : String
  headers : String → String
  queryStringParameters : String → String

/-- `events.APIGatewayProxyResponse`, restricted to the fields the handler
writes.  `Headers` is always the `corsHeaders` map. -/
structure APIGatewayProxyResponse where
  statusCode : Nat
  body : String
  headers : CorsHeaders
  deriving Repr, DecidableEq

/-- Outcome of the outbound HTTP request performed by `search`: either a
transport-level failure (`httpClient.Do` returns an error) or a response with
a status code and a body read that may itself fail (`io.ReadAll`). -/
inductive HttpResult where
  | transportError (msg : String)
  | response (statusCode : Nat) (body : Except String String)

/-- The oracle state a single invocation runs against: the Redis store
(value and absolute expiry time per key), the current clock, per-invocation
Redis read/write failure flags, the outbound HTTP world keyed by request URL,
and the mutable package-level `corsHeaders` map. -/
structure World where
  now : Nat
  store : String → Option (String × Nat)
  getFails : Bool
  setFails : Bool
  http : String → HttpResult
  cors : CorsHeaders

def localhostOrigin : String := "http://localhost:3000"

def githubOrigin : String := "https://tshrestha.github.io"

def searchURL : String := "https://api.mapbox.com/search/geocode/v6"

def forwardSearchURL (token : String) : String :=
  searchURL ++ "/forward?country=us&types=place&access_token=" ++ token

def reverseSearchURL (token : String) : String :=
  searchURL ++ "/reverse?country=us&types=place&access_token=" ++ token

/-- `createResponse`: if the request's `Origin` header is one of the two
allow-listed origins, the global `corsHeaders` map is mutated to reflect it;
the response carries the (possibly updated) global map.  Returns the updated
world together with the response. -/
def createResponse (w : World) (req : APIGatewayProxyRequest) (statusCode : Nat)
    (body : String) : World × APIGatewayProxyResponse :=
  let origin := req.headers "Origin"
  let cors :=
    if origin = localhostOrigin ∨ origin = githubOrigin then
      { w.cors with allowOrigin := req.headers "Origin" }
    else w.cors
  ({ w with cors := cors },
   { statusCode := statusCode, body := body, headers := cors })

/-- `redisClient.Get(ctx, key).Result()`: an unreachable backend yields an
error; a missing or expired key yields the `redis.Nil` error; otherwise the
stored value is returned. -/
def redisGet (w : World) (key : String) : Except String String :=
  if w.getFails then .error "cache backend unreachable"
  else
    match w.store key with
    | some (v, expiry) => if w.now < expiry then .ok v else .error "redis: nil"
    | none => .error "redis: nil"

/-- `getCached`: any Redis error (miss, expiry, unreachable backend) is logged
and collapsed to the empty string. -/
def getCached (w : World) (key : String) : String :=
  match redisGet w key with
  | .ok cached => cached
  | .error _ => ""

/-- `200 * time.Hour` in nanoseconds, the TTL `setCache` passes to
`redisClient.Set`. -/
def ttl200Hours : Nat := 200 * 3600 * 1000000000

/-- `setCache`: writes the value under the key with a 200-hour TTL; a write
failure is logged and swallowed, leaving the store unchanged. -/
def setCache (w : World) (key value : String) : World :=
  if w.setFails then w
  else
    { w with
      store := fun k => if k = key then some (value, w.now + ttl200Hours) else w.store k }

/-- `search`: classifies the outbound HTTP outcome.  A transport failure or a
body-read failure propagates the error; status 200 returns the raw body; any
other status becomes the error
`"received unexpected status code <status>"`. -/
def search (r : HttpResult) : Except String String :=
  match r with
  | .transportError msg => .error msg
  | .response s body =>
    if s = 200 then body
    else .error ("received unexpected status code " ++ toString s)

/-- Everything a single dispatch produces: the updated oracle state, the
response handed back to the Lambda runtime, and the list of URLs the
Provider Client was invoked on (in order). -/
structure HandlerOutcome where
  world : World
  response : APIGatewayProxyResponse
  fetched : List String

/-- The cache key of a reverse query: the line `key := lat + lon` of
`reverseSearch` — plain concatenation, no separator. -/
def reverseKey (lat lon : String) : String := lat ++ lon

/-- `forwardSearch`: cache-aside orchestration for a forward query.  The
cache key is the raw query text. -/
def forwardSearch (token : String) (w : World) (req : APIGatewayProxyRequest)
    (query : String) : HandlerOutcome :=
  let cached := getCached w query
  if cached = "" then
    let reqURL := forwardSearchURL token ++ "&q=" ++ query
    match search (w.http reqURL) with
    | .error e =>
      let wr := createResponse w req 500 e
      { world := wr.1, response := wr.2, fetched := [reqURL] }
    | .ok result =>
      let w1 := setCache w query result
      let wr := createResponse w1 req 200 result
      { world := wr.1, response := wr.2, fetched := [reqURL] }
  else
    let wr := createResponse w req 200 cached
    { world := wr.1, response := wr.2, fetched := [] }

/-- `reverseSearch`: cache-aside orchestration for a reverse query.  The
cache key is `reverseKey lat lon`; the provider URL carries the two
parameters separately. -/
def reverseSearch (token : String) (w : World) (req : APIGatewayProxyRequest)
    (lat lon : String) : HandlerOutcome :=
  let key := reverseKey lat lon
  let cached := getCached w key
  if cached = "" then
    let reqURL := reverseSearchURL token ++ "&latitude=" ++ lat ++ "&longitude=" ++ lon
    match search (w.http reqURL) with
    | .error e =>
      let wr := createResponse w req 500 e
      { world := wr.1, response := wr.2, fetched := [reqURL] }
    | .ok result =>
      let w1 := setCache w key result
      let wr := createResponse w1 req 200 result
      { world := wr.1, response := wr.2, fetched := [reqURL] }
  else
    let wr := createResponse w req 200 cached
    { world := wr.1, response := wr.2, fetched := [] }

/-- `strings.Split` on a single separator character: splits around every
occurrence of the separator; the empty string splits into `[""]`, so the
result is never empty. -/
def splitChars (sep : Char) : List Char → List (List Char)
  | [] => [[]]
  | c :: cs =>
    let rest := splitChars sep cs
    if c = sep then [] :: rest
    else
      match rest with
      | r :: rs => (c :: r) :: rs
      | [] => [[c]]

/-- `strings.Split(path, "/")`. -/
def splitPath (s : String) : List String :=
  (splitChars (Char.ofNat 47) s.data).map String.mk

/-- `handler`: the Lambda entry point.  The first guard transcribes the Go
condition `request.HTTPMethod == http.MethodOptions && origin ==
localhostOrigin || origin == githubOrigin` with Go operator precedence, i.e.
`(OPTIONS ∧ localhost) ∨ github`.  GET requests are routed on the final
path segment (`pathSegments[len(pathSegments)-1]`, total because
`strings.Split` never returns an empty slice); other methods get 405. -/
def handler (token : String) (w : World) (request : APIGatewayProxyRequest) :
    HandlerOutcome :=
  let origin := request.headers "Origin"
  if (request.httpMethod = "OPTIONS" ∧ origin = localhostOrigin) ∨ origin = githubOrigin then
    let wr := createResponse w request 200 ""
    { world := wr.1, response := wr.2, fetched := [] }
  else if request.httpMethod = "GET" then
    let pathSegments := splitPath request.path
    let requestType := pathSegments.getLastD ""
    if requestType = "forward" then
      forwardSearch token w request (request.queryStringParameters "q")
    else if requestType = "reverse" then
      reverseSearch token w request (request.queryStringParameters "lat")
        (request.queryStringParameters "lon")
    else
      let wr := createResponse w request 404 ""
      { world := wr.1, response := wr.2, fetched := [] }
  else
    let wr := createResponse w request 405 ""
    { world := wr.1, response := wr.2, fetched := [] }

/-!
## The authenticated-encryption utility (`internal/keygen.go`)

Bytes are `Nat`s below 256.  `encoding/base64`'s `RawURLEncoding` (URL
alphabet, no padding) is embedded concretely; the AES-GCM AEAD from
`crypto/cipher` is an external library and is modelled as a structure of
sealing/opening functions together with the contract Go documents for it
(fixed 16-byte overhead, open inverts seal, byte-valued output). -/

/-- Sextet-to-character map of base64's URL alphabet
(`A-Z`, `a-z`, `0-9`, `-`, `_`). -/
def b64char (n : Nat) : Char :=
  if n < 26 then Char.ofNat (65 + n)
  else if n < 52 then Char.ofNat (97 + (n - 26))
  else if n < 62 then Char.ofNat (48 + (n - 52))
  else if n = 62 then Char.ofNat 45
  else Char.ofNat 95

/-- Character-to-sextet map of base64's URL alphabet. -/
def b64val (c : Char) : Option Nat :=
  if 65 ≤ c.toNat ∧ c.toNat ≤ 90 then some (c.toNat - 65)
  else if 97 ≤ c.toNat ∧ c.toNat ≤ 122 then some (c.toNat - 97 + 26)
  else if 48 ≤ c.toNat ∧ c.toNat ≤ 57 then some (c.toNat - 48 + 52)
  else if c.toNat = 45 then some 62
  else if c.toNat = 95 then some 63
  else none

/-- Byte list to sextet list: groups of three bytes become four sextets; a
final group of one or two bytes becomes two or three sextets (no padding). -/
def encodeBytes : List Nat → List Nat
  | [] => []
  | [a] => [a / 4, a % 4 * 16]
  | [a, b] => [a / 4, a % 4 * 16 + b / 16, b % 16 * 4]
  | a :: b :: c :: rest =>
    a / 4 :: (a % 4 * 16 + b / 16) :: (b % 16 * 4 + c / 64) :: c % 64 :: encodeBytes rest

/-- Sextet list back to byte list; a single trailing sextet is malformed.
Trailing sextet bits are not checked, matching Go's non-strict decoder. -/
def decodeSextets : List Nat → Option (List Nat)
  | [] => some []
  | [_] => none
  | [x, y] => some [x * 4 + y / 16]
  | [x, y, z] => some [x * 4 + y / 16, y % 16 * 16 + z / 4]
  | x :: y :: z :: u :: rest =>
    match decodeSextets rest with
    | some tail => some ((x * 4 + y / 16) :: (y % 16 * 16 + z / 4) :: (z % 4 * 64 + u) :: tail)
    | none => none

/-- Per-character decoding of a base64 text. -/
def b64vals : List Char → Option (List Nat)
  | [] => some []
  | c :: cs =>
    match b64val c, b64vals cs with
    | some v, some vs => some (v :: vs)
    | _, _ => none

/-- `base64.RawURLEncoding.EncodeToString`. -/
def b64encode (bytes : List Nat) : String :=
  String.mk ((encodeBytes bytes).map b64char)

/-- `base64.RawURLEncoding.DecodeString`. -/
def b64decode (s : String) : Option (List Nat) :=
  match b64vals s.data with
  | some sextets => decodeSextets sextets
  | none => none

/-- `aes.NewCipher` succeeds exactly for 16-, 24- or 32-byte keys. -/
def validKeyLen (key : List Nat) : Bool :=
  key.length == 16 || key.length == 24 || key.length == 32

/-- The AEAD obtained from `cipher.NewGCM` over an AES block cipher,
modelled by its sealing and opening functions together with the contract
`crypto/cipher` documents: `seal` appends exactly a 16-byte tag, produces
bytes, and `aeadOpen` inverts it on the sealing nonce. -/
structure GCMSpec where
  nonceSize : Nat
  sealOp : List Nat → List Nat → List Nat
  openOp : List Nat → List Nat → Option (List Nat)
  sealOp_length : ∀ nonce pt, (sealOp nonce pt).length = pt.length + 16
  sealOp_bytes : ∀ nonce pt, (∀ x ∈ pt, x < 256) → ∀ x ∈ sealOp nonce pt, x < 256
  openOp_sealOp : ∀ nonce pt, openOp nonce (sealOp nonce pt) = some pt

/-- The deterministic key-to-AEAD assignment realised by
`cipher.NewGCM(aes.NewCipher(key))`: the same key always yields the same
sealing and opening functions. -/
structure AEADFamily where
  gcmOf : List Nat → GCMSpec

/-- `internal.Encrypt`: reject invalid key lengths, then lay out
`[nonce | ciphertext | tag]` in a single buffer of size
`nonceSize + len(plaintext) + 16` (`gcm.Seal` writes in place into the
buffer's remaining capacity, hence the `take`), and base64-encode it.  The
`nonce` argument models the `rand.Reader` bytes `io.ReadFull` places at the
start of the buffer. -/
def Encrypt (fam : AEADFamily) (nonce plaintext key : List Nat) : Except String String :=
  if validKeyLen key then
    let gcm := fam.gcmOf key
    let rawSize := gcm.nonceSize + plaintext.length + 16
    let out := (nonce ++ gcm.sealOp nonce plaintext).take rawSize
    .ok (b64encode out)
  else .error "crypto/aes: invalid key size"

/-- `internal.Decrypt`: base64-decode, reject invalid key lengths, reject
data shorter than the nonce, split `[nonce | ciphertext+tag]` at the nonce
size and open. -/
def Decrypt (fam : AEADFamily) (cryptoText : String) (key : List Nat) :
    Except String (List Nat) :=
  match b64decode cryptoText with
  | none => .error "illegal base64 data"
  | some data =>
    if validKeyLen key then
      let gcm := fam.gcmOf key
      if data.length < gcm.nonceSize then .error "ciphertext too short"
      else
        match gcm.openOp (data.take gcm.nonceSize) (data.drop gcm.nonceSize) with
        | some pt => .ok pt
        | none => .error "cipher: message authentication failed"
    else .error "crypto/aes: invalid key size"

/-!
## Helper lemmas about the gateway orchestration
-/

theorem getCached_hit (w : World) (k v : String) (e : Nat) (hg : w.getFails = false)
    (hs : w.store k = some (v, e)) (ht : w.now < e) : getCached w k = v := by
  simp [getCached, redisGet, hg, hs, ht]

theorem getCached_unreachable (w : World) (k : String) (hg : w.getFails = true) :
    getCached w k = "" := by
  simp [getCached, redisGet, hg]

theorem getCached_none (w : World) (k : String) (hs : w.store k = none) :
    getCached w k = "" := by
  cases hg : w.getFails <;> simp [getCached, redisGet, hg, hs]

theorem getCached_empty_value (w : World) (k : String) (e : Nat)
    (hs : w.store k = some ("", e)) : getCached w k = "" := by
  cases hg : w.getFails
  · by_cases ht : w.now < e <;> simp [getCached, redisGet, hg, hs, ht]
  · simp [getCached, redisGet, hg]

theorem forwardSearch_hit (token : String) (w : World) (req : APIGatewayProxyRequest)
    (q v : String) (hc : getCached w q = v) (hv : v ≠ "") :
    forwardSearch token w req q =
      { world := (createResponse w req 200 v).1,
        response := (createResponse w req 200 v).2, fetched := [] } := by
  simp [forwardSearch, hc, hv]

theorem forwardSearch_miss_ok (token : String) (w : World) (req : APIGatewayProxyRequest)
    (q B : String) (hmiss : getCached w q = "")
    (hok : search (w.http (forwardSearchURL token ++ "&q=" ++ q)) = .ok B) :
    forwardSearch token w req q =
      { world := (createResponse (setCache w q B) req 200 B).1,
        response := (createResponse (setCache w q B) req 200 B).2,
        fetched := [forwardSearchURL token ++ "&q=" ++ q] } := by
  simp [forwardSearch, hmiss, hok]

theorem forwardSearch_miss_err (token : String) (w : World) (req : APIGatewayProxyRequest)
    (q msg : String) (hmiss : getCached w q = "")
    (herr : search (w.http (forwardSearchURL token ++ "&q=" ++ q)) = .error msg) :
    forwardSearch token w req q =
      { world := (createResponse w req 500 msg).1,
        response := (createResponse w req 500 msg).2,
        fetched := [forwardSearchURL token ++ "&q=" ++ q] } := by
  simp [forwardSearch, hmiss, herr]

theorem reverseSearch_hit (token : String) (w : World) (req : APIGatewayProxyRequest)
    (lat lon v : String) (hc : getCached w (reverseKey lat lon) = v) (hv : v ≠ "") :
    reverseSearch token w req lat lon =
      { world := (createResponse w req 200 v).1,
        response := (createResponse w req 200 v).2, fetched := [] } := by
  simp [reverseSearch, hc, hv]

theorem reverseSearch_miss_ok (token : String) (w : World) (req : APIGatewayProxyRequest)
    (lat lon B : String) (hmiss : getCached w (reverseKey lat lon) = "")
    (hok : search (w.http (reverseSearchURL token ++ "&latitude=" ++ lat ++ "&longitude=" ++ lon)) =
      .ok B) :
    reverseSearch token w req lat lon =
      { world := (createResponse (setCache w (reverseKey lat lon) B) req 200 B).1,
        response := (createResponse (setCache w (reverseKey lat lon) B) req 200 B).2,
        fetched := [reverseSearchURL token ++ "&latitude=" ++ lat ++ "&longitude=" ++ lon] } := by
  simp [reverseSearch, hmiss, hok]

/-!
## Concrete fixtures used by witnesses and counterexamples
-/

/-- A request with no headers and no query parameters. -/
def baseRequest : APIGatewayProxyRequest :=
  { httpMethod := "GET", path := "/x/forward",
    headers := fun _ => "", queryStringParameters := fun _ => "" }

/-- A fresh world: empty cache, healthy backends, a provider that answers
every URL with status 200 and body `"RESULT"`, the initial CORS map. -/
def baseWorld : World :=
  { now := 0, store := fun _ => none, getFails := false, setFails := false,
    http := fun _ => .response 200 (.ok "RESULT"), cors := initialCorsHeaders }

/-- World whose cache binds the key `"Seattle"` to the empty string. -/
def emptyEntryWorld : World :=
  { baseWorld with store := fun k => if k = "Seattle" then some ("", 1000) else none }

/-- **C1** (as stated, counterexample): the key `"Seattle"` is present in the
Cache Store (bound to the empty string), yet the handler invokes the Provider
Client and returns the provider body, not the stored value. -/
theorem cache_present_not_always_served :
    ((emptyEntryWorld.store "Seattle").isSome = true) ∧
    (forwardSearch "T" emptyEntryWorld baseRequest "Seattle").fetched ≠ [] ∧
    (forwardSearch "T" emptyEntryWorld baseRequest "Seattle").response.body ≠ "" := by
  refine ⟨?_, ?_, ?_⟩ <;> decide

/-- **C1** (amended): for every request whose cache read succeeds and finds a
non-empty value under the derived key, the handler responds 200 with exactly
the cached body and the Provider Client is never invoked. -/
theorem cache_hit_short_circuit (token : String) (w : World)
    (req : APIGatewayProxyRequest) (q v : String) (e : Nat)
    (hg : w.getFails = false) (hs : w.store q = some (v, e)) (ht : w.now < e)
    (hv : v ≠ "") :
    (forwardSearch token w req q).response.statusCode = 200 ∧
    (forwardSearch token w req q).response.body = v ∧
    (forwardSearch token w req q).fetched = [] := by
  have hc := getCached_hit w q v e hg hs ht
  rw [forwardSearch_hit token w req q v hc hv]
  simp [createResponse]

/-- World whose cache binds the key `"Seattle"` to `"CACHED"`. -/
def hitWorld : World :=
  { baseWorld with store := fun k => if k = "Seattle" then some ("CACHED", 5) else none }

theorem cache_hit_short_circuit_witness :
    (forwardSearch "T" hitWorld baseRequest "Seattle").response.statusCode = 200 ∧
    (forwardSearch "T" hitWorld baseRequest "Seattle").response.body = "CACHED" ∧
    (forwardSearch "T" hitWorld baseRequest "Seattle").fetched = [] :=
  cache_hit_short_circuit "T" hitWorld baseRequest "Seattle" "CACHED" 5 rfl (by decide)
    (by decide) (by decide)

/-- World whose provider answers every URL with status 200 and empty body. -/
def emptyBodyWorld : World :=
  { baseWorld with http := fun _ => .response 200 (.ok "") }

/-- **C2** (as stated, counterexample): after a miss followed by a successful
provider call returning the empty body, the entry is written and present, yet
an immediately subsequent request for the same key invokes the Provider
Client again. -/
theorem cache_population_empty_body_refetches :
    (forwardSearch "T" emptyBodyWorld baseRequest "Seattle").fetched ≠ [] ∧
    ((forwardSearch "T" emptyBodyWorld baseRequest "Seattle").world.store "Seattle").isSome
      = true ∧
    (forwardSearch "T" (forwardSearch "T" emptyBodyWorld baseRequest "Seattle").world
      baseRequest "Seattle").fetched ≠ [] := by
  refine ⟨?_, ?_, ?_⟩ <;> decide

/-- **C2** (amended): on a miss followed by a successful provider call with a
non-empty body `B`, when the cache write succeeds the orchestrator stores `B`
under the same key with expiry `now + 200h` and responds 200 with `B`; any
subsequent request against that store within the entry's validity window
(with a healthy cache read) is served the cached `B` with no further provider
invocation. -/
theorem cache_aside_population (token : String) (w : World)
    (req req2 : APIGatewayProxyRequest) (q B : String)
    (hmiss : getCached w q = "")
    (hok : search (w.http (forwardSearchURL token ++ "&q=" ++ q)) = .ok B)
    (hset : w.setFails = false) (hB : B ≠ "") :
    (forwardSearch token w req q).response.statusCode = 200 ∧
    (forwardSearch token w req q).response.body = B ∧
    (forwardSearch token w req q).world.store q = some (B, w.now + ttl200Hours) ∧
    ∀ w2 : World, w2.store = (forwardSearch token w req q).world.store →
      w2.getFails = false → w2.now < w.now + ttl200Hours →
      (forwardSearch token w2 req2 q).response.statusCode = 200 ∧
      (forwardSearch token w2 req2 q).response.body = B ∧
      (forwardSearch token w2 req2 q).fetched = [] := by
  rw [forwardSearch_miss_ok token w req q B hmiss hok]
  refine ⟨by simp [createResponse], by simp [createResponse], ?_, ?_⟩
  · simp [createResponse, setCache, hset]
  · intro w2 hw2 hg2 ht2
    have hstore : w2.store q = some (B, w.now + ttl200Hours) := by
      rw [hw2]; simp [createResponse, setCache, hset]
    have hc := getCached_hit w2 q B (w.now + ttl200Hours) hg2 hstore ht2
    rw [forwardSearch_hit token w2 req2 q B hc hB]
    simp [createResponse]

theorem cache_aside_population_witness :
    (forwardSearch "T" (forwardSearch "T" baseWorld baseRequest "Seattle").world
      baseRequest "Seattle").response.statusCode = 200 ∧
    (forwardSearch "T" (forwardSearch "T" baseWorld baseRequest "Seattle").world
      baseRequest "Seattle").response.body = "RESULT" ∧
    (forwardSearch "T" (forwardSearch "T" baseWorld baseRequest "Seattle").world
      baseRequest "Seattle").fetched = [] := by
  have h := cache_aside_population "T" baseWorld baseRequest baseRequest "Seattle" "RESULT"
    (by decide) rfl rfl (by decide)
  exact h.2.2.2 (forwardSearch "T" baseWorld baseRequest "Seattle").world rfl rfl (by decide)

/-- **C3**: a reverse query's cache key is the separator-free concatenation
of the latitude and longitude strings, which collides on adjacent splits such
as `("1","23")` and `("12","3")`; a forward query is cached under the raw
text; colliding reverse keys are behaviourally indistinguishable on a cache
hit. -/
theorem key_derivation :
    (∀ lat lon : String, reverseKey lat lon = lat ++ lon) ∧
    (reverseKey "1" "23" = reverseKey "12" "3" ∧
      (("1", "23") : String × String) ≠ ("12", "3")) ∧
    (∀ (token : String) (w : World) (req : APIGatewayProxyRequest) (q v : String),
      getCached w q = v → v ≠ "" →
      (forwardSearch token w req q).response.body = v ∧
      (forwardSearch token w req q).fetched = []) ∧
    (∀ (token : String) (w : World) (req : APIGatewayProxyRequest)
        (lat lon lat2 lon2 : String),
      reverseKey lat lon = reverseKey lat2 lon2 →
      getCached w (reverseKey lat lon) ≠ "" →
      (reverseSearch token w req lat lon).response =
        (reverseSearch token w req lat2 lon2).response ∧
      (reverseSearch token w req lat lon).fetched = [] ∧
      (reverseSearch token w req lat2 lon2).fetched = []) := by
  refine ⟨fun _ _ => rfl, ⟨by decide, by decide⟩, ?_, ?_⟩
  · intro token w req q v hc hv
    rw [forwardSearch_hit token w req q v hc hv]
    simp [createResponse]
  · intro token w req lat lon lat2 lon2 hk hv
    have h1 := reverseSearch_hit token w req lat lon (getCached w (reverseKey lat lon)) rfl hv
    have hc2 : getCached w (reverseKey lat2 lon2) = getCached w (reverseKey lat lon) := by
      rw [hk]
    have h2 := reverseSearch_hit token w req lat2 lon2 (getCached w (reverseKey lat lon)) hc2 hv
    rw [h1, h2]
    exact ⟨rfl, rfl, rfl⟩

/-- World whose cache binds the key `"123"` to `"PLACE"`. -/
def collisionWorld : World :=
  { baseWorld with store := fun k => if k = "123" then some ("PLACE", 9) else none }

theorem key_derivation_witness :
    (reverseSearch "T" collisionWorld baseRequest "1" "23").response =
      (reverseSearch "T" collisionWorld baseRequest "12" "3").response ∧
    (reverseSearch "T" collisionWorld baseRequest "1" "23").fetched = [] := by
  have h := key_derivation.2.2.2 "T" collisionWorld baseRequest "1" "23" "12" "3"
    (by decide) (by decide)
  exact ⟨h.1, h.2.1⟩

theorem headersGet_allowOrigin (h : CorsHeaders) :
    headersGet h "Access-Control-Allow-Origin" = some h.allowOrigin := rfl

theorem headersGet_allowHeaders (h : CorsHeaders) :
    headersGet h "Access-Control-Allow-Headers" = some h.allowHeaders := by
  simp [headersGet]

theorem headersGet_allowMethods (h : CorsHeaders) :
    headersGet h "Access-Control-Allow-Methods" = some h.allowMethods := by
  simp [headersGet]

/-- Request carrying an Origin header outside the allow-list. -/
def evilRequest : APIGatewayProxyRequest :=
  { baseRequest with headers := fun k => if k = "Origin" then "https://evil.example" else "" }

/-- **C4** (as stated, counterexample): for a request whose Origin is not in
the allow-list, the `Access-Control-Allow-Origin` header is not absent — on
the initial global CORS map it is present with the value
`http://localhost:3000`. -/
theorem cors_unlisted_origin_header_present :
    (evilRequest.headers "Origin" ≠ localhostOrigin ∧
      evilRequest.headers "Origin" ≠ githubOrigin) ∧
    headersGet (createResponse baseWorld evilRequest 200 "").2.headers
      "Access-Control-Allow-Origin" = some "http://localhost:3000" := by
  refine ⟨⟨?_, ?_⟩, ?_⟩ <;> decide

/-- **C4** (amended): an allow-listed Origin is reflected verbatim into
`Access-Control-Allow-Origin`; `Access-Control-Allow-Headers` and
`Access-Control-Allow-Methods` stay at the global map's `"*"` values; a
non-allow-listed Origin leaves `Access-Control-Allow-Origin` present with the
global map's current value (initially `http://localhost:3000`) rather than
removing it. -/
theorem cors_reflection (w : World) (req : APIGatewayProxyRequest)
    (status : Nat) (body : String)
    (hh : w.cors.allowHeaders = "*") (hm : w.cors.allowMethods = "*") :
    ((req.headers "Origin" = localhostOrigin ∨ req.headers "Origin" = githubOrigin) →
      headersGet (createResponse w req status body).2.headers
        "Access-Control-Allow-Origin" = some (req.headers "Origin")) ∧
    (¬(req.headers "Origin" = localhostOrigin ∨ req.headers "Origin" = githubOrigin) →
      headersGet (createResponse w req status body).2.headers
        "Access-Control-Allow-Origin" = some w.cors.allowOrigin) ∧
    headersGet (createResponse w req status body).2.headers
      "Access-Control-Allow-Headers" = some "*" ∧
    headersGet (createResponse w req status body).2.headers
      "Access-Control-Allow-Methods" = some "*" ∧
    headersGet initialCorsHeaders "Access-Control-Allow-Origin" =
      some "http://localhost:3000" := by
  refine ⟨?_, ?_, ?_, ?_, rfl⟩
  · intro hor
    rw [headersGet_allowOrigin]
    simp [createResponse, hor]
  · intro hor
    rw [headersGet_allowOrigin]
    simp [createResponse, hor]
  · rw [headersGet_allowHeaders]
    by_cases hor : req.headers "Origin" = localhostOrigin ∨ req.headers "Origin" = githubOrigin <;>
      simp [createResponse, hor, hh]
  · rw [headersGet_allowMethods]
    by_cases hor : req.headers "Origin" = localhostOrigin ∨ req.headers "Origin" = githubOrigin <;>
      simp [createResponse, hor, hm]

/-- Request declaring the local development origin. -/
def localRequest : APIGatewayProxyRequest :=
  { baseRequest with headers := fun k => if k = "Origin" then "http://localhost:3000" else "" }

theorem cors_reflection_witness :
    headersGet (createResponse baseWorld localRequest 200 "").2.headers
      "Access-Control-Allow-Origin" = some "http://localhost:3000" ∧
    headersGet (createResponse baseWorld localRequest 200 "").2.headers
      "Access-Control-Allow-Headers" = some "*" := by
  have h := cors_reflection baseWorld localRequest 200 "" rfl rfl
  have h1 := h.1 (Or.inl (by decide))
  exact ⟨by rw [h1]; decide, h.2.2.1⟩

/-- `GET /x/forward?q=Seattle` declaring the public site origin. -/
def githubForwardRequest : APIGatewayProxyRequest :=
  { httpMethod := "GET", path := "/x/forward",
    headers := fun k => if k = "Origin" then githubOrigin else "",
    queryStringParameters := fun k => if k = "q" then "Seattle" else "" }

/-- **C5** (code bug, evaluated at the failing input): a `GET /x/forward`
request with Origin `https://tshrestha.github.io` is captured by the
preflight guard — Go parses `m == OPTIONS && o == localhost || o == github`
as `(m == OPTIONS ∧ o == localhost) ∨ o == github` — so the handler answers
200 with an empty body and never dispatches forward search, although a
dispatch on the same world would have produced the provider body. -/
theorem github_origin_bypasses_routing :
    (handler "T" baseWorld githubForwardRequest).response.statusCode = 200 ∧
    (handler "T" baseWorld githubForwardRequest).response.body = "" ∧
    (handler "T" baseWorld githubForwardRequest).fetched = [] ∧
    (forwardSearch "T" baseWorld githubForwardRequest
      (githubForwardRequest.queryStringParameters "q")).response.body = "RESULT" := by
  refine ⟨?_, ?_, ?_, ?_⟩ <;> decide

/-- World whose provider answers every URL with status 503. -/
def failingUpstreamWorld : World :=
  { baseWorld with http := fun _ => .response 503 (.ok "unused") }

/-- **C6**: on a cache miss, a classified provider error is surfaced as a 500
whose body is the error's descriptive text; a non-200 upstream status `S`
yields the body `"received unexpected status code S"` (so the decimal digits
of `S` are a suffix of the body), and exactly one provider attempt is made. -/
theorem upstream_error_maps_to_500 (token : String) (w : World)
    (req : APIGatewayProxyRequest) (q : String) (hmiss : getCached w q = "") :
    (∀ msg, search (w.http (forwardSearchURL token ++ "&q=" ++ q)) = .error msg →
      (forwardSearch token w req q).response.statusCode = 500 ∧
      (forwardSearch token w req q).response.body = msg ∧
      (forwardSearch token w req q).fetched = [forwardSearchURL token ++ "&q=" ++ q]) ∧
    (∀ (S : Nat) (b : Except String String),
      w.http (forwardSearchURL token ++ "&q=" ++ q) = .response S b → S ≠ 200 →
      (forwardSearch token w req q).response.statusCode = 500 ∧
      (forwardSearch token w req q).response.body =
        "received unexpected status code " ++ toString S ∧
      (∃ pre, (forwardSearch token w req q).response.body = pre ++ toString S) ∧
      (forwardSearch token w req q).fetched.length = 1) := by
  constructor
  · intro msg herr
    rw [forwardSearch_miss_err token w req q msg hmiss herr]
    simp [createResponse]
  · intro S b hresp hS
    have herr : search (w.http (forwardSearchURL token ++ "&q=" ++ q)) =
        .error ("received unexpected status code " ++ toString S) := by
      rw [hresp]; simp [search, hS]
    rw [forwardSearch_miss_err token w req q _ hmiss herr]
    refine ⟨by simp [createResponse], by simp [createResponse],
      ⟨"received unexpected status code ", by simp [createResponse]⟩,
      by simp [createResponse]⟩

theorem upstream_error_maps_to_500_witness :
    (forwardSearch "T" failingUpstreamWorld baseRequest "Seattle").response.statusCode = 500 ∧
    (forwardSearch "T" failingUpstreamWorld baseRequest "Seattle").response.body =
      "received unexpected status code 503" ∧
    (forwardSearch "T" failingUpstreamWorld baseRequest "Seattle").fetched.length = 1 := by
  have h := (upstream_error_maps_to_500 "T" failingUpstreamWorld baseRequest "Seattle"
    (by decide)).2 503 (.ok "unused") rfl (by decide)
  exact ⟨h.1, by rw [h.2.1]; decide, h.2.2.2⟩

theorem setCache_cors (w : World) (k v : String) : (setCache w k v).cors = w.cors := by
  by_cases h : w.setFails <;> simp [setCache, h]

theorem createResponse_resp_eq (w w2 : World) (req : APIGatewayProxyRequest)
    (status : Nat) (body : String) (hc : w.cors = w2.cors) :
    (createResponse w req status body).2 = (createResponse w2 req status body).2 := by
  simp [createResponse, hc]

/-- **C7**: when the cache read fails, the request behaves exactly as a cache
miss against an empty store — same response, same provider invocations — and
in particular a successful provider call still yields a 200 with the
provider's body: a cache outage is never surfaced to the caller. -/
theorem cache_read_failure_degrades_to_miss (token : String) (w : World)
    (req : APIGatewayProxyRequest) (q B : String) (hg : w.getFails = true) :
    ((forwardSearch token w req q).response =
      (forwardSearch token { w with getFails := false, store := fun _ => none } req q).response) ∧
    ((forwardSearch token w req q).fetched =
      (forwardSearch token { w with getFails := false, store := fun _ => none } req q).fetched) ∧
    (search (w.http (forwardSearchURL token ++ "&q=" ++ q)) = .ok B →
      (forwardSearch token w req q).response.statusCode = 200 ∧
      (forwardSearch token w req q).response.body = B ∧
      (forwardSearch token w req q).fetched = [forwardSearchURL token ++ "&q=" ++ q]) := by
  have hm : getCached w q = "" := getCached_unreachable w q hg
  have hm2 : getCached { w with getFails := false, store := fun _ => none } q = "" :=
    getCached_none _ q rfl
  cases hs : search (w.http (forwardSearchURL token ++ "&q=" ++ q)) with
  | error e =>
    rw [forwardSearch_miss_err token w req q e hm hs,
      forwardSearch_miss_err token { w with getFails := false, store := fun _ => none }
        req q e hm2 hs]
    refine ⟨createResponse_resp_eq _ _ req 500 e rfl, rfl, ?_⟩
    intro hok
    exact absurd hok (by simp)
  | ok b =>
    rw [forwardSearch_miss_ok token w req q b hm hs,
      forwardSearch_miss_ok token { w with getFails := false, store := fun _ => none }
        req q b hm2 hs]
    refine ⟨createResponse_resp_eq _ _ req 200 b (by rw [setCache_cors, setCache_cors]),
      rfl, ?_⟩
    intro hok
    have hb : b = B := by injection hok
    subst hb
    exact ⟨by simp [createResponse], by simp [createResponse], rfl⟩

/-- World whose cache backend is unreachable for reads. -/
def downCacheWorld : World := { baseWorld with getFails := true }

theorem cache_read_failure_degrades_to_miss_witness :
    (forwardSearch "T" downCacheWorld baseRequest "Seattle").response.statusCode = 200 ∧
    (forwardSearch "T" downCacheWorld baseRequest "Seattle").response.body = "RESULT" ∧
    (forwardSearch "T" downCacheWorld baseRequest "Seattle").fetched =
      [forwardSearchURL "T" ++ "&q=" ++ "Seattle"] :=
  (cache_read_failure_degrades_to_miss "T" downCacheWorld baseRequest "Seattle" "RESULT"
    rfl).2.2 rfl

/-- **C8**: on a miss with a successful provider call, the response is exactly
the same whether the subsequent cache write fails or succeeds — in both cases
a 200 carrying the provider's body: a failed cache write never fails the
request. -/
theorem cache_write_failure_ignored (token : String) (w : World)
    (req : APIGatewayProxyRequest) (q B : String)
    (hmiss : getCached w q = "")
    (hok : search (w.http (forwardSearchURL token ++ "&q=" ++ q)) = .ok B) :
    (forwardSearch token { w with setFails := true } req q).response =
      (forwardSearch token { w with setFails := false } req q).response ∧
    (forwardSearch token { w with setFails := true } req q).response.statusCode = 200 ∧
    (forwardSearch token { w with setFails := true } req q).response.body = B := by
  have hm1 : getCached { w with setFails := true } q = "" := hmiss
  have hm2 : getCached { w with setFails := false } q = "" := hmiss
  rw [forwardSearch_miss_ok token { w with setFails := true } req q B hm1 hok,
    forwardSearch_miss_ok token { w with setFails := false } req q B hm2 hok]
  refine ⟨by simp [createResponse, setCache], by simp [createResponse], by simp [createResponse]⟩

/-- World with an empty cache whose writes fail. -/
def writeFailWorld : World := { baseWorld with setFails := true }

theorem cache_write_failure_ignored_witness :
    (forwardSearch "T" { writeFailWorld with setFails := true } baseRequest "Seattle").response
      = (forwardSearch "T" { writeFailWorld with setFails := false } baseRequest
          "Seattle").response ∧
    (forwardSearch "T" { writeFailWorld with setFails := true } baseRequest
      "Seattle").response.statusCode = 200 ∧
    (forwardSearch "T" { writeFailWorld with setFails := true } baseRequest
      "Seattle").response.body = "RESULT" :=
  cache_write_failure_ignored "T" writeFailWorld baseRequest "Seattle" "RESULT"
    (by decide) rfl

/-- **C10**: an entry whose stored value is the empty string is treated
exactly as a miss — for both forward and reverse queries the Provider Client
is invoked and, on provider success, its body (not the stored empty value) is
returned with status 200. -/
theorem empty_cached_value_is_miss (token : String) (w : World)
    (req : APIGatewayProxyRequest) (q lat lon : String) (e1 e2 : Nat)
    (hsf : w.store q = some ("", e1))
    (hsr : w.store (reverseKey lat lon) = some ("", e2)) :
    getCached w q = "" ∧
    (∀ B, search (w.http (forwardSearchURL token ++ "&q=" ++ q)) = .ok B →
      (forwardSearch token w req q).fetched = [forwardSearchURL token ++ "&q=" ++ q] ∧
      (forwardSearch token w req q).response.statusCode = 200 ∧
      (forwardSearch token w req q).response.body = B) ∧
    (∀ B, search (w.http (reverseSearchURL token ++ "&latitude=" ++ lat ++
        "&longitude=" ++ lon)) = .ok B →
      (reverseSearch token w req lat lon).fetched =
        [reverseSearchURL token ++ "&latitude=" ++ lat ++ "&longitude=" ++ lon] ∧
      (reverseSearch token w req lat lon).response.statusCode = 200 ∧
      (reverseSearch token w req lat lon).response.body = B) := by
  have hmf : getCached w q = "" := getCached_empty_value w q e1 hsf
  have hmr : getCached w (reverseKey lat lon) = "" :=
    getCached_empty_value w (reverseKey lat lon) e2 hsr
  refine ⟨hmf, ?_, ?_⟩
  · intro B hok
    rw [forwardSearch_miss_ok token w req q B hmf hok]
    exact ⟨rfl, by simp [createResponse], by simp [createResponse]⟩
  · intro B hok
    rw [reverseSearch_miss_ok token w req lat lon B hmr hok]
    exact ⟨rfl, by simp [createResponse], by simp [createResponse]⟩

/-- World whose cache binds both `"Seattle"` and `"123"` to the empty string. -/
def emptyEntriesWorld : World :=
  { baseWorld with
    store := fun k => if k = "Seattle" ∨ k = "123" then some ("", 1000) else none }

theorem empty_cached_value_is_miss_witness :
    (forwardSearch "T" emptyEntriesWorld baseRequest "Seattle").fetched =
      [forwardSearchURL "T" ++ "&q=" ++ "Seattle"] ∧
    (forwardSearch "T" emptyEntriesWorld baseRequest "Seattle").response.body = "RESULT" ∧
    (reverseSearch "T" emptyEntriesWorld baseRequest "1" "23").fetched =
      [reverseSearchURL "T" ++ "&latitude=" ++ "1" ++ "&longitude=" ++ "23"] ∧
    (reverseSearch "T" emptyEntriesWorld baseRequest "1" "23").response.body = "RESULT" := by
  have h := empty_cached_value_is_miss "T" emptyEntriesWorld baseRequest "Seattle" "1" "23"
    1000 1000 (by decide) (by decide)
  have hf := h.2.1 "RESULT" rfl
  have hr := h.2.2 "RESULT" rfl
  exact ⟨hf.1, hf.2.2, hr.1, hr.2.2⟩

/-!
## Round-trip of the authenticated-encryption utility
-/

theorem b64val_b64char : ∀ n, n < 64 → b64val (b64char n) = some n := by decide

theorem encodeBytes_lt : ∀ l : List Nat, (∀ x ∈ l, x < 256) → ∀ s ∈ encodeBytes l, s < 64
  | [] => by intro _ s hs; simp [encodeBytes] at hs
  | [a] => by
    intro h s hs
    have ha := h a (by simp)
    simp [encodeBytes] at hs
    rcases hs with h1 | h1 <;> omega
  | [a, b] => by
    intro h s hs
    have ha := h a (by simp)
    have hb := h b (by simp)
    simp [encodeBytes] at hs
    rcases hs with h1 | h1 | h1 <;> omega
  | a :: b :: c :: rest => by
    intro h s hs
    have ha := h a (by simp)
    have hb := h b (by simp)
    have hc := h c (by simp)
    have ih := encodeBytes_lt rest (fun x hx => h x (by simp [hx]))
    simp only [encodeBytes, List.cons_append, List.mem_cons] at hs
    rcases hs with h1 | h1 | h1 | h1 | h1
    · omega
    · omega
    · omega
    · omega
    · exact ih s h1

theorem decodeSextets_encodeBytes : ∀ l : List Nat, (∀ x ∈ l, x < 256) →
    decodeSextets (encodeBytes l) = some l
  | [] => fun _ => rfl
  | [a] => by
    intro h
    have ha := h a (by simp)
    simp [encodeBytes, decodeSextets]
    omega
  | [a, b] => by
    intro h
    have ha := h a (by simp)
    have hb := h b (by simp)
    simp [encodeBytes, decodeSextets]
    constructor <;> omega
  | a :: b :: c :: rest => by
    intro h
    have ha := h a (by simp)
    have hb := h b (by simp)
    have hc := h c (by simp)
    have ih := decodeSextets_encodeBytes rest (fun x hx => h x (by simp [hx]))
    simp [encodeBytes, decodeSextets, ih]
    refine ⟨?_, ?_, ?_⟩ <;> omega

theorem b64vals_map_b64char : ∀ l : List Nat, (∀ s ∈ l, s < 64) →
    b64vals (l.map b64char) = some l
  | [] => fun _ => rfl
  | s :: rest => by
    intro h
    have h1 : b64val (b64char s) = some s := b64val_b64char s (h s (by simp))
    have ih := b64vals_map_b64char rest (fun x hx => h x (by simp [hx]))
    simp [b64vals, h1, ih]

/-- Decoding inverts raw-URL base64 encoding on byte lists. -/
theorem b64decode_b64encode (l : List Nat) (h : ∀ x ∈ l, x < 256) :
    b64decode (b64encode l) = some l := by
  have hlt := encodeBytes_lt l h
  simp [b64encode, b64decode, b64vals_map_b64char (encodeBytes l) hlt,
    decodeSextets_encodeBytes l h]

/-- **C9**: for every valid AES key length and every plaintext, `Decrypt`
inverts `Encrypt`: the single-buffer `[nonce | ciphertext | tag]` layout is
base64-decoded, split at the nonce size, and opened back to exactly the
original plaintext. -/
theorem encrypt_decrypt_roundtrip (fam : AEADFamily) (key nonce plaintext : List Nat)
    (hkey : validKeyLen key = true)
    (hnonce : nonce.length = (fam.gcmOf key).nonceSize)
    (hnb : ∀ x ∈ nonce, x < 256) (hpb : ∀ x ∈ plaintext, x < 256) :
    ∃ ct, Encrypt fam nonce plaintext key = .ok ct ∧
      Decrypt fam ct key = .ok plaintext := by
  have hslen := (fam.gcmOf key).sealOp_length nonce plaintext
  have hlen : (nonce ++ (fam.gcmOf key).sealOp nonce plaintext).length =
      (fam.gcmOf key).nonceSize + plaintext.length + 16 := by
    simp [hslen, hnonce]
    omega
  have hout : (nonce ++ (fam.gcmOf key).sealOp nonce plaintext).take
      ((fam.gcmOf key).nonceSize + plaintext.length + 16) =
      nonce ++ (fam.gcmOf key).sealOp nonce plaintext :=
    List.take_of_length_le (le_of_eq hlen)
  refine ⟨b64encode (nonce ++ (fam.gcmOf key).sealOp nonce plaintext), ?_, ?_⟩
  · simp [Encrypt, hkey, hout]
  · have hbytes : ∀ x ∈ nonce ++ (fam.gcmOf key).sealOp nonce plaintext, x < 256 := by
      intro x hx
      rcases List.mem_append.mp hx with h1 | h1
      · exact hnb x h1
      · exact (fam.gcmOf key).sealOp_bytes nonce plaintext hpb x h1
    have hdec := b64decode_b64encode _ hbytes
    have hnlt : ¬((nonce ++ (fam.gcmOf key).sealOp nonce plaintext).length <
        (fam.gcmOf key).nonceSize) := by
      rw [hlen]; omega
    have htake : (nonce ++ (fam.gcmOf key).sealOp nonce plaintext).take
        (fam.gcmOf key).nonceSize = nonce := by
      rw [← hnonce]; exact List.take_left _ _
    have hdrop : (nonce ++ (fam.gcmOf key).sealOp nonce plaintext).drop
        (fam.gcmOf key).nonceSize = (fam.gcmOf key).sealOp nonce plaintext := by
      rw [← hnonce]; exact List.drop_left _ _
    simp [Decrypt, hdec, hkey, hnlt, htake, hdrop,
      (fam.gcmOf key).openOp_sealOp nonce plaintext]
    omega

/-- A concrete AEAD satisfying the `crypto/cipher` contract, used to witness
the round-trip theorem: sealing appends sixteen zero tag bytes and opening
strips them. -/
def toyGCM : GCMSpec where
  nonceSize := 12
  sealOp := fun _ pt => pt ++ List.replicate 16 0
  openOp := fun _ ct => if 16 ≤ ct.length then some (ct.take (ct.length - 16)) else none
  sealOp_length := by intro n pt; simp
  sealOp_bytes := by
    intro n pt hp x hx
    rcases List.mem_append.mp hx with h1 | h1
    · exact hp x h1
    · have := List.eq_of_mem_replicate h1
      omega
  openOp_sealOp := by
    intro n pt
    dsimp only
    have h1 : (16 : Nat) ≤ (pt ++ List.replicate 16 0).length := by simp
    rw [if_pos h1]
    have h2 : (pt ++ List.replicate 16 0).length - 16 = pt.length := by simp
    rw [h2]
    exact congrArg some (List.take_left pt (List.replicate 16 0))

def toyFamily : AEADFamily := { gcmOf := fun _ => toyGCM }

def sampleKey : List Nat := List.replicate 16 0

def sampleNonce : List Nat := List.replicate 12 7

def samplePlain : List Nat := [104, 101, 121, 200]

theorem encrypt_decrypt_roundtrip_witness :
    ∃ ct, Encrypt toyFamily sampleNonce samplePlain sampleKey = .ok ct ∧
      Decrypt toyFamily ct sampleKey = .ok samplePlain :=
  encrypt_decrypt_roundtrip toyFamily sampleKey sampleNonce samplePlain (by decide)
    (by decide) (by decide) (by decide)

end Nawa
